import Mathlib

/-!
Verification development for the vslcpy compiler front end.

This file gives a shallow embedding of the AST model (src/ast.py) and of the
AST-to-IR lowering engine (src/codegen.py, class LLVMCodeGenerator), and proves
properties of the lowering engine against the specification.

Modelling conventions:
- Python exceptions are modelled by the error type PyErr.  A CodegenError
  raised by the lowering engine is one group of constructors; Python-level
  crashes that escape the engine (KeyError, TypeError, AttributeError) are
  separate constructors, so that "fails with a lowering error" and
  "crashes" are distinguishable.
- Mutable generator state (self.module.globals, self.main_symbol_table,
  self.function_symbol_table, self.builder) is threaded explicitly through
  the monad CG.  A Python exception propagates while leaving all mutations
  made so far in place, so CG keeps the state on the error path as well.
- The llvmlite backend is external to the repository.  Only the pieces of its
  documented API that the lowering engine touches are modelled:
  ir.Module.get_global(name) returns self.globals[name] and hence raises
  KeyError when the name is absent; constructing ir.Function(module, ty, name)
  or ir.GlobalVariable(module, ty, name) registers the value in
  module.globals; func.args has one entry per fixed parameter of the
  function type; IRBuilder.function is the parent of the basic block the
  builder is positioned on, IRBuilder.append_basic_block delegates to
  self.function.append_basic_block (only ir.Function has that method), and
  builder.if_else appends its branch blocks through it on entry.
- Addresses of stack slots (the results of builder.alloca) are modelled by a
  fresh-number counter nextAlloca, so that distinct allocas are distinct
  storage locations.  The random 6-character suffixes produced by ran6() for
  format-string globals are modelled by the fresh counter nextFstr; user
  identifiers cannot collide with these names because the lexer forbids the
  underscore in identifiers.
- Numeric literals (Python floats) are modelled as rationals; the lowering
  engine only stores them into ir.Constant values and never computes with
  them, so no floating-point arithmetic needs to be modelled.
-/

namespace VSL

/-! ## The AST model, from src/ast.py

Expression is the class hierarchy Expression with subclasses BinaryOperation,
Number, ID and FunctionCall.  Every Expression object carries the mutable
attribute minus_flag (default False); the field minusFlag of each constructor
models that attribute.  The name of a FunctionCall and the entries of
parameter lists are ID nodes in the source; only their name strings are ever
read, so they are modelled as strings.  The argument_list of a FunctionCall
is either Python None (empty parentheses in the grammar) or a list of
expressions; Arguments models that distinction.  ExprList is a specialized
list of expressions so that the lowering functions can be defined by plain
structural recursion.
-/

mutual

inductive Expr where
  | BinaryOperation (minusFlag : Bool) (left_expression : Expr) (operator : String)
      (right_expression : Expr) : Expr
  | Number (minusFlag : Bool) (value : ℚ) : Expr
  | ID (minusFlag : Bool) (name : String) : Expr
  | FunctionCall (minusFlag : Bool) (name : String) (argument_list : Arguments) : Expr

inductive Arguments where
  | pyNone : Arguments
  | pyList (l : ExprList) : Arguments

inductive ExprList where
  | nil : ExprList
  | cons (head : Expr) (tail : ExprList) : ExprList

end

/-- Mirrors Expression.change_minus_flag (src/ast.py lines 161-169): toggles
the minus_flag attribute of the receiver.  In the source this mutates the
object in place and returns None; the parser action p_expression_uminus
(src/yacc.py lines 59-61) assigns that None return value to the production
result.  Here the toggled node itself is returned, which models the state of
the mutated object. -/
def Expr.change_minus_flag : Expr → Expr
  | .BinaryOperation f l op r => .BinaryOperation (!f) l op r
  | .Number f v => .Number (!f) v
  | .ID f n => .ID (!f) n
  | .FunctionCall f n a => .FunctionCall (!f) n a

/-- Length of an ExprList, used for len(argument_list). -/
def ExprList.length : ExprList → Nat
  | .nil => 0
  | .cons _ tail => tail.length + 1

/-- Items of a print_list: either an Expression or a Text node (a raw string
literal).  Mirrors the print_item production of src/yacc.py. -/
inductive PrintItem where
  | ofExpr (e : Expr)
  | ofText (value : String)

/-- Mirrors class VariableDeclaration (src/ast.py): an ordered list of
identifiers to declare. -/
structure VariableDeclaration where
  variable_list : List String

mutual

inductive Stmt where
  | AssignStatement (left_variable : String) (right_expression : Expr) : Stmt
  | IfStatement (test : Expr) (then_block : Block) (else_block : ElseBranch) : Stmt
  | WhileStatement (test : Expr) (block : Block) : Stmt
  | ReturnStatement (expression : Expr) : Stmt
  | PrintStatement (print_list : List PrintItem) : Stmt

/-- The else_block attribute of an IfStatement is Python None when the source
had no ELSE branch (see p_if_statement in src/yacc.py); pyNone models that
None. -/
inductive ElseBranch where
  | pyNone : ElseBranch
  | someBlock (b : Block) : ElseBranch

inductive Block where
  | mk (declaration_list : List VariableDeclaration) (statement_list : StmtList) : Block

inductive StmtList where
  | nil : StmtList
  | cons (head : Stmt) (tail : StmtList) : StmtList

end

/-- Mirrors class FunctionDefinition (src/ast.py): a name, a parameter list
and a body block.  Name and parameters are ID nodes in the source; only
their name strings are read by the lowering engine. -/
structure FunctionDefinition where
  name : String
  parameter_list : List String
  body : Block

/-- Mirrors class Program (src/ast.py): an ordered list of function
definitions. -/
structure Program where
  function_list : List FunctionDefinition

/-! ## Generator state and error model -/

/-- Attributes whose absence makes a Python attribute access raise
AttributeError in the lowering engine:
- builder: self.builder is assigned only in shell mode at __init__ (and
  later inside _codegen_FunctionDefinition); reading it before any
  assignment raises AttributeError.
- main_symbol_table: self.main_symbol_table is assigned only in shell mode.
- codegen_NoneType: the dispatcher self._codegen builds the method name from
  the class of the node; for Python None that is _codegen_NoneType, which
  does not exist, so getattr raises AttributeError (this dispatch sits in the
  unconditional else-branch lowering of _codegen_IfStatement, which is
  unreachable because builder.if_else raises first, see append_basic_block);
- append_basic_block: _codegen_IfStatement repositions the builder onto a
  dangling ir.Block whose parent is the previous basic block, and
  builder.if_else then calls self.function.append_basic_block, where
  IRBuilder.function is self.block.parent; a Block has no
  append_basic_block method, so getattr raises AttributeError. -/
inductive MissingAttr where
  | builder
  | main_symbol_table
  | codegen_NoneType
  | append_basic_block
  deriving DecidableEq

/-- Errors that abort lowering.  The first five model CodegenError raised by
src/codegen.py with the corresponding message; the last three model Python
exceptions that escape the engine as crashes:
- nameErrorUndefined: CodegenError NameError ... is not defined
  (raised in _codegen_ID and _codegen_AssignStatement);
- noSuchOperator: CodegenError No such operator (in _codegen_BinaryOperation);
- callToUnknownFunction: CodegenError Call to unknown function
  (in _codegen_FunctionCall);
- callArgumentLengthMismatch: CodegenError Call argument length ... mismatch
  (in _codegen_FunctionCall);
- redefinitionOfFunction: CodegenError Redefinition of function
  (in _codegen_FunctionDefinition);
- keyError: a Python KeyError raised by ir.Module.get_global for a missing
  name;
- typeErrorLenOfNone: the TypeError raised by len(None);
- attributeError: a Python AttributeError for a missing attribute. -/
inductive PyErr where
  | nameErrorUndefined (name : String)
  | noSuchOperator (op : String)
  | callToUnknownFunction (callee : String)
  | callArgumentLengthMismatch (given : Nat) (callee : String)
  | redefinitionOfFunction (name : String)
  | keyError (key : String)
  | typeErrorLenOfNone
  | attributeError (attr : MissingAttr)
  deriving DecidableEq

/-- True exactly for the errors that are raised as CodegenError by the
lowering engine itself (reported lowering failures); false for Python
crashes that escape it. -/
def PyErr.isCodegenError : PyErr → Bool
  | .nameErrorUndefined _ => true
  | .noSuchOperator _ => true
  | .callToUnknownFunction _ => true
  | .callArgumentLengthMismatch _ _ => true
  | .redefinitionOfFunction _ => true
  | .keyError _ => false
  | .typeErrorLenOfNone => false
  | .attributeError _ => false

/-- One entry of self.module.globals:
- func arity hasBody: an ir.Function whose type has the given number of fixed
  parameters; hasBody is true for functions given a body by the engine (user
  functions and the shell entry function) and false for the external printf
  declaration;
- gvar content: an internal constant array global holding a string (the
  format-string globals created for Text nodes and print statements). -/
inductive GlobalEntry where
  | func (arity : Nat) (hasBody : Bool)
  | gvar (content : String)
  deriving DecidableEq

/-- Values produced by the expression visitors (llvmlite ir.Value results):
constants, loads from a stack slot, arithmetic instruction results, ordered
float comparisons, call results and pointers to string globals. -/
inductive IRValue where
  | const (value : ℚ)
  | load (addr : Nat) (name : String)
  | binop (op : String) (lhs rhs : IRValue)
  | fcmpGt (lhs rhs : IRValue)
  | call (callee : String) (args : List IRValue)
  | strPtr (globalName : String)

/-- The shell or compile mode fixed at construction of LLVMCodeGenerator. -/
inductive Mode where
  | shell
  | compile
  deriving DecidableEq

/-- Mutable state of one LLVMCodeGenerator instance:
- moduleGlobals: self.module.globals, an insertion-ordered mapping from names
  to global values;
- main_symbol_table: self.main_symbol_table, present (some) only when the
  attribute was assigned, which happens only in shell mode;
- function_symbol_table: self.function_symbol_table;
- builder: the name of the function the current IR builder is positioned in,
  or none when the attribute self.builder was never assigned (compile mode
  before the first assignment);
- nextAlloca: fresh-address supply for builder.alloca results;
- nextFstr: fresh-name supply for the fstr format-string globals. -/
structure CGState where
  mode : Mode
  moduleGlobals : List (String × GlobalEntry)
  main_symbol_table : Option (List (String × Nat))
  function_symbol_table : List (String × Nat)
  builder : Option String
  nextAlloca : Nat
  nextFstr : Nat
  deriving DecidableEq

/-- Lookup in an insertion-ordered table (Python dict lookup). -/
def tblGet {α : Type} (tbl : List (String × α)) (k : String) : Option α :=
  match tbl with
  | [] => none
  | (k2, v) :: rest => if k2 = k then some v else tblGet rest k

/-- Assignment in an insertion-ordered table (Python dict item assignment):
overwrites the value in place when the key exists, appends otherwise. -/
def tblSet {α : Type} (tbl : List (String × α)) (k : String) (v : α) : List (String × α) :=
  match tbl with
  | [] => [(k, v)]
  | (k2, v2) :: rest => if k2 = k then (k2, v) :: rest else (k2, v2) :: tblSet rest k v

/-- Registration of a new global value in self.module.globals, as performed
by the constructors of ir.Function and ir.GlobalVariable.  Every call site in
the engine either checks for absence first (user functions, printf) or uses a
fresh generated name (format strings), so the llvmlite assertion that the
name is unused never fires and plain appending is faithful. -/
def addGlobal (st : CGState) (k : String) (v : GlobalEntry) : CGState :=
  { st with moduleGlobals := st.moduleGlobals ++ [(k, v)] }

/-- The generated name of the next format-string global: fstr_ followed by
the output of ran6(), modelled by the fresh counter. -/
def fstrName (n : Nat) : String :=
  "fstr_" ++ toString n

/-- The computation monad of the lowering engine: explicit state passing with
Python exception semantics.  An error keeps the state mutated so far, because
a propagating Python exception does not undo attribute mutations. -/
def CG (α : Type) : Type :=
  CGState → Except PyErr α × CGState

/-- Monadic return. -/
def CG.pure {α : Type} (a : α) : CG α :=
  fun st => (Except.ok a, st)

/-- Raise an exception, keeping the current state. -/
def CG.throw {α : Type} (e : PyErr) : CG α :=
  fun st => (Except.error e, st)

/-- Sequencing with exception propagation. -/
def CG.bind {α β : Type} (x : CG α) (f : α → CG β) : CG β :=
  fun st =>
    match x st with
    | (Except.ok a, st2) => f a st2
    | (Except.error e, st2) => (Except.error e, st2)

/-- Read the whole state. -/
def CG.get : CG CGState :=
  fun st => (Except.ok st, st)

/-- Update the state. -/
def CG.modify (f : CGState → CGState) : CG Unit :=
  fun st => (Except.ok (), f st)

/-- Read of the attribute self.builder: raises AttributeError when the
attribute was never assigned (compile mode before lowering positions a
builder), otherwise yields the name of the function under construction. -/
def CG.readBuilder : CG String :=
  fun st =>
    match st.builder with
    | none => (Except.error (PyErr.attributeError MissingAttr.builder), st)
    | some f => (Except.ok f, st)

/-! ## The lowering engine, from src/codegen.py -/

/-- Mirrors the two-tier lookup performed identically by _codegen_ID
(lines 111-121) and by the target resolution of _codegen_AssignStatement
(lines 126-134): the function tier is consulted first; on a miss there,
self.main_symbol_table is read (AttributeError when the attribute is absent,
i.e. outside shell mode) and a KeyError from the global tier is caught and
re-raised as the CodegenError NameError message. -/
def resolveTwoTier (name : String) : CG Nat :=
  fun st =>
    match tblGet st.function_symbol_table name with
    | some addr => (Except.ok addr, st)
    | none =>
      match st.main_symbol_table with
      | none => (Except.error (PyErr.attributeError MissingAttr.main_symbol_table), st)
      | some tbl =>
        match tblGet tbl name with
        | none => (Except.error (PyErr.nameErrorUndefined name), st)
        | some addr => (Except.ok addr, st)

/-- Mirrors _codegen_ID (lines 111-121): resolve the name through the two
tiers, then emit a load through self.builder. -/
def codegen_ID (name : String) : CG IRValue :=
  CG.bind (resolveTwoTier name) (fun addr =>
  CG.bind CG.readBuilder (fun _ =>
  CG.pure (IRValue.load addr name)))

/-- Removal of leading and trailing double-quote characters, as performed by
the Python str.strip call of _codegen_Text on the raw TEXT token. -/
def stripQuotes (s : String) : String :=
  String.mk (((s.data.dropWhile (fun c => c = '"')).reverse.dropWhile (fun c => c = '"')).reverse)

/-- Mirrors _codegen_Text (lines 100-109): the raw value is stripped of its
surrounding double quotes, stored in a fresh internal constant global named
fstr_ plus a random suffix, and a pointer to that global is returned through
builder.bitcast.  The unicode escape decoding of the payload is not modelled;
the stored content is otherwise the stripped string. -/
def codegen_Text (value : String) : CG IRValue :=
  fun st =>
    let content := stripQuotes value
    let gname := fstrName st.nextFstr
    let st1 := addGlobal { st with nextFstr := st.nextFstr + 1 } gname (GlobalEntry.gvar content)
    match st1.builder with
    | none => (Except.error (PyErr.attributeError MissingAttr.builder), st1)
    | some _ => (Except.ok (IRValue.strPtr gname), st1)

/-- Number of arguments of a call: 0 for a None argument_list, the list
length otherwise.  Mirrors lines 209-212 of _codegen_FunctionCall. -/
def Arguments.count : Arguments → Nat
  | .pyNone => 0
  | .pyList l => l.length

mutual

/-- Dispatcher restricted to expression nodes; mirrors _codegen (lines 88-95)
together with the per-class visitors:
- _codegen_Number (lines 97-98): a double constant; the minus_flag attribute
  of the node is not consulted by any visitor;
- _codegen_ID: see codegen_ID;
- _codegen_BinaryOperation (lines 138-153): lower left then right operand,
  then select the arithmetic instruction by the operator, raising the
  CodegenError No such operator for any other operator string;
- _codegen_FunctionCall (lines 201-219): look the callee up with
  module.get_global, which raises KeyError for an unknown name, making the
  subsequent is-None test dead code; a global that is not an ir.Function
  raises the CodegenError Call to unknown function; an argument count
  differing from the fixed-parameter count of the callee raises the
  CodegenError Call argument length mismatch, except that building that very
  message evaluates len(argument_list), which raises TypeError when the
  argument_list is None; finally the arguments are lowered left to right and
  a call is emitted. -/
def codegenExpr : Expr → CG IRValue
  | .Number _ value => CG.pure (IRValue.const value)
  | .ID _ name => codegen_ID name
  | .BinaryOperation _ left op right =>
      CG.bind (codegenExpr left) (fun lhs =>
      CG.bind (codegenExpr right) (fun rhs =>
        if op = "+" then
          CG.bind CG.readBuilder (fun _ => CG.pure (IRValue.binop op lhs rhs))
        else if op = "-" then
          CG.bind CG.readBuilder (fun _ => CG.pure (IRValue.binop op lhs rhs))
        else if op = "*" then
          CG.bind CG.readBuilder (fun _ => CG.pure (IRValue.binop op lhs rhs))
        else if op = "/" then
          CG.bind CG.readBuilder (fun _ => CG.pure (IRValue.binop op lhs rhs))
        else
          CG.throw (PyErr.noSuchOperator op)))
  | .FunctionCall _ callee args =>
      CG.bind CG.get (fun st =>
        match tblGet st.moduleGlobals callee with
        | none => CG.throw (PyErr.keyError callee)
        | some entry =>
          match entry with
          | .gvar _ => CG.throw (PyErr.callToUnknownFunction callee)
          | .func arity _ =>
            if arity ≠ args.count then
              match args with
              | .pyNone => CG.throw PyErr.typeErrorLenOfNone
              | .pyList l => CG.throw (PyErr.callArgumentLengthMismatch l.length callee)
            else
              CG.bind (codegenArgs args) (fun vals =>
              CG.bind CG.readBuilder (fun _ =>
              CG.pure (IRValue.call callee vals))))

/-- Lowering of the argument_list of a call: the empty list for None,
otherwise each argument in order.  Mirrors lines 215-218. -/
def codegenArgs : Arguments → CG (List IRValue)
  | .pyNone => CG.pure []
  | .pyList l => codegenExprList l

/-- Left-to-right lowering of a list of expressions. -/
def codegenExprList : ExprList → CG (List IRValue)
  | .nil => CG.pure []
  | .cons e rest =>
      CG.bind (codegenExpr e) (fun v =>
      CG.bind (codegenExprList rest) (fun vs =>
      CG.pure (v :: vs)))

end

/-- Mirrors _codegen_AssignStatement (lines 123-136): the target name is
resolved through the two tiers first (raising before the right-hand side is
touched when unresolved), then the right-hand expression is lowered and the
value stored through self.builder. -/
def codegen_AssignStatement (left_variable : String) (right_expression : Expr) : CG Unit :=
  CG.bind (resolveTwoTier left_variable) (fun _addr =>
  CG.bind (codegenExpr right_expression) (fun _v =>
  CG.bind CG.readBuilder (fun _ =>
  CG.pure ())))

/-- Mirrors the loop body of _codegen_VariableDeclaration (lines 179-199) for
the list of declared identifiers: for each name in order, a fresh alloca is
created through self.builder (AttributeError when the builder attribute is
absent) and initialized to 0.0, and the name is bound to the new address in
the tier selected by the name of the function the builder is positioned in:
the main tier when that name is the string main (AttributeError when
self.main_symbol_table is absent), the function tier otherwise. -/
def declareVars : List String → CG Unit
  | [] => CG.pure ()
  | name :: rest =>
      CG.bind CG.readBuilder (fun bf =>
      fun st =>
        let addr := st.nextAlloca
        let st1 := { st with nextAlloca := st.nextAlloca + 1 }
        if bf = "main" then
          match st1.main_symbol_table with
          | none => (Except.error (PyErr.attributeError MissingAttr.main_symbol_table), st1)
          | some tbl =>
            declareVars rest { st1 with main_symbol_table := some (tblSet tbl name addr) }
        else
          declareVars rest { st1 with function_symbol_table := tblSet st1.function_symbol_table name addr })

/-- Mirrors _codegen_VariableDeclaration (lines 179-199). -/
def codegen_VariableDeclaration (node : VariableDeclaration) : CG Unit :=
  declareVars node.variable_list

/-- Lowering of the declaration_list of a block, first loop of _codegen_Block
(lines 272-274). -/
def codegenDeclarationList : List VariableDeclaration → CG Unit
  | [] => CG.pure ()
  | d :: rest =>
      CG.bind (codegen_VariableDeclaration d) (fun _ =>
      codegenDeclarationList rest)

/-- The fixed single-decimal numeric format config.float_format. -/
def config_float_format : String :=
  "%.1f"

/-- The format string assembled by _codegen_PrintStatement (lines 302-307):
one percent-s field per Text item, the fixed float format per expression
item. -/
def buildFormat (items : List PrintItem) : String :=
  items.foldl (fun acc i =>
    acc ++ match i with
           | .ofText _ => "%s"
           | .ofExpr _ => config_float_format) ""

/-- Dispatch of self._codegen on one print item: a Text node goes to
_codegen_Text, an expression to its expression visitor. -/
def codegenPrintItem : PrintItem → CG IRValue
  | .ofText v => codegen_Text v
  | .ofExpr e => codegenExpr e

/-- Left-to-right lowering of the print items (the list comprehension on
line 318). -/
def codegenPrintItems : List PrintItem → CG (List IRValue)
  | [] => CG.pure []
  | i :: rest =>
      CG.bind (codegenPrintItem i) (fun v =>
      CG.bind (codegenPrintItems rest) (fun vs =>
      CG.pure (v :: vs)))

/-- Mirrors _codegen_PrintStatement (lines 292-318): the external printf
declaration is added to module.globals unless already present; the format
string is assembled and stored in a fresh internal global; the format pointer
is obtained through self.builder.bitcast (AttributeError when the builder
attribute is absent); the print items are lowered in order and one call to
printf is emitted. -/
def codegen_PrintStatement (print_list : List PrintItem) : CG Unit :=
  CG.bind CG.get (fun st =>
  CG.bind (if (tblGet st.moduleGlobals "printf").isSome then CG.pure ()
           else CG.modify (fun s => addGlobal s "printf" (GlobalEntry.func 1 false))) (fun _ =>
  CG.bind (CG.modify (fun s =>
            addGlobal { s with nextFstr := s.nextFstr + 1 }
              (fstrName s.nextFstr) (GlobalEntry.gvar (buildFormat print_list)))) (fun _ =>
  CG.bind CG.readBuilder (fun _ =>
  CG.bind (codegenPrintItems print_list) (fun _vals =>
  CG.pure ())))))

/-- The truthiness comparison emitted by _codegen_IfStatement (line 159): an
ordered floating-point greater-than comparison of the test value against the
constant zero. -/
def truthPredicate (testValue : IRValue) : IRValue :=
  IRValue.fcmpGt testValue (IRValue.const 0)

mutual

/-- Dispatcher restricted to statement nodes; mirrors _codegen together with
the per-class visitors:
- _codegen_AssignStatement: see codegen_AssignStatement;
- _codegen_IfStatement (lines 155-173): self.builder.fcmp_ordered is
  evaluated, which reads the builder attribute first, then lowers the test
  and compares it against zero with the strict greater-than predicate
  (line 159); line 163 creates a dangling ir.Block whose parent is the
  current basic block (not the function), line 164 appends a fresh block to
  the function (using the dangling Block object as its name), and line 165
  positions the builder at the start of the dangling block; entering
  builder.if_else (line 166) then immediately calls
  self.function.append_basic_block, where IRBuilder.function is
  self.block.parent, here a Block without an append_basic_block method, so
  every IfStatement raises AttributeError at this point, before either
  branch is lowered; the code that would lower the then block and then
  unconditionally dispatch self._codegen(node.else_block) (raising
  AttributeError on the missing _codegen_NoneType visitor when the else
  branch is absent) is kept in the model after that raise, mirroring the
  source text, but is unreachable;
- _codegen_WhileStatement (lines 175-177): an empty body marked TODO in the
  source, a no-op;
- _codegen_ReturnStatement (lines 286-290): the expression is lowered and
  emitted as the result through self.builder.ret;
- _codegen_PrintStatement: see codegen_PrintStatement. -/
def codegenStmt : Stmt → CG Unit
  | .AssignStatement lv re => codegen_AssignStatement lv re
  | .IfStatement test then_block else_block =>
      CG.bind CG.readBuilder (fun _ =>
      CG.bind (codegenExpr test) (fun tv =>
      CG.bind (CG.pure (truthPredicate tv)) (fun _cmp =>
      CG.bind (CG.throw (PyErr.attributeError MissingAttr.append_basic_block) : CG Unit) (fun _ =>
      CG.bind (codegenBlock then_block) (fun _ =>
      match else_block with
      | .someBlock b => codegenBlock b
      | .pyNone => CG.throw (PyErr.attributeError MissingAttr.codegen_NoneType))))))
  | .WhileStatement _ _ => CG.pure ()
  | .ReturnStatement e =>
      CG.bind (codegenExpr e) (fun _v =>
      CG.bind CG.readBuilder (fun _ =>
      CG.pure ()))
  | .PrintStatement l => codegen_PrintStatement l

/-- Mirrors _codegen_Block (lines 269-278): declarations in order, then
statements in order. -/
def codegenBlock : Block → CG Unit
  | .mk decls stmts =>
      CG.bind (codegenDeclarationList decls) (fun _ =>
      codegenStmtList stmts)

/-- Left-to-right lowering of a list of statements (second loop of
_codegen_Block). -/
def codegenStmtList : StmtList → CG Unit
  | .nil => CG.pure ()
  | .cons s rest =>
      CG.bind (codegenStmt s) (fun _ =>
      codegenStmtList rest)

end

/-- Binding of the incoming parameters at the start of a function body
(lines 250-254): for each parameter in order an alloca is created, the
incoming value stored into it, and the function tier maps the parameter name
to the new address. -/
def bindParams (st : CGState) : List String → CGState
  | [] => st
  | p :: rest =>
      bindParams
        { st with
          function_symbol_table := tblSet st.function_symbol_table p st.nextAlloca,
          nextAlloca := st.nextAlloca + 1 }
        rest

/-- Mirrors _codegen_FunctionDefinition (lines 221-267):
1. when the function name is already present in module.globals, the
   CodegenError Redefinition of function is raised before any mutation;
2. otherwise ir.Function registers the new function (with one double
   parameter per source parameter) in module.globals;
3. self.function_symbol_table is reset to empty;
4. stored_builder = self.builder reads the builder attribute, which raises
   AttributeError in compile mode where the attribute was never assigned;
5. a fresh builder is positioned in the entry block of the new function, the
   parameters are bound, and the body is lowered;
6. only when the body lowering raised no exception, a default return of 0.0
   is emitted, the function tier is reset to empty and the stored builder is
   restored; on the failure path the exception propagates immediately,
   leaving the function tier populated and the builder positioned in the
   failed function. -/
def codegen_FunctionDefinition (node : FunctionDefinition) : CG Unit :=
  fun st =>
    if (tblGet st.moduleGlobals node.name).isSome then
      (Except.error (PyErr.redefinitionOfFunction node.name), st)
    else
      let st1 := addGlobal st node.name (GlobalEntry.func node.parameter_list.length true)
      let st2 := { st1 with function_symbol_table := [] }
      match st2.builder with
      | none => (Except.error (PyErr.attributeError MissingAttr.builder), st2)
      | some stored_builder =>
        let st3 := { st2 with builder := some node.name }
        let st4 := bindParams st3 node.parameter_list
        match codegenBlock node.body st4 with
        | (Except.error e, st5) => (Except.error e, st5)
        | (Except.ok _, st5) =>
          (Except.ok (), { st5 with function_symbol_table := [], builder := some stored_builder })

/-- Lowering of a list of function definitions in order (the loop of
_codegen_Program, also the list branch of generate_code). -/
def codegenFunctionList : List FunctionDefinition → CG Unit
  | [] => CG.pure ()
  | f :: rest =>
      CG.bind (codegen_FunctionDefinition f) (fun _ =>
      codegenFunctionList rest)

/-- Mirrors _codegen_Program (lines 280-284): each top-level function in
declaration order. -/
def codegen_Program (node : Program) : CG Unit :=
  codegenFunctionList node.function_list

/-- Initial state of LLVMCodeGenerator.__init__ (lines 19-73).  In shell
mode the module starts with the implicit entry function main (a zero-argument
function given an entry block and a return), the builder is positioned inside
it, and the main symbol table exists and is empty.  In compile mode the
module starts empty and neither self.builder nor self.main_symbol_table is
ever assigned by __init__.  In both modes the function symbol table starts
empty. -/
def initState (mode : Mode) : CGState :=
  match mode with
  | .shell =>
      { mode := Mode.shell
        moduleGlobals := [("main", GlobalEntry.func 0 true)]
        main_symbol_table := some []
        function_symbol_table := []
        builder := some "main"
        nextAlloca := 0
        nextFstr := 0 }
  | .compile =>
      { mode := Mode.compile
        moduleGlobals := []
        main_symbol_table := none
        function_symbol_table := []
        builder := none
        nextAlloca := 0
        nextFstr := 0 }

/-! ## Construction contracts of the AST model (src/ast.py)

The asserts executed by the node constructors are dynamic type checks over
arbitrary Python values, so the constructor arguments are modelled by PyVal,
a sum of the value shapes relevant to the checked contracts: an instance of
an Expression subclass, a Text node (an ASTNode that is not an Expression),
and Python None.  A constructor is modelled as a function returning either
the constructed node or the AssertionError raised by a failed assert. -/

/-- A Python value passed to an AST constructor. -/
inductive PyVal where
  | ofExpr (e : Expr)
  | ofText (value : String)
  | pyNone

/-- True when the value is an instance of an Expression subclass, which is
what assert issubclass(type(x), Expression) checks. -/
def PyVal.isExpression : PyVal → Bool
  | .ofExpr _ => true
  | _ => false

/-- The node produced by BinaryOperation.__init__. -/
structure BinaryOperationNode where
  left_expression : PyVal
  operator : String
  right_expression : PyVal

/-- Mirrors BinaryOperation.__init__ (src/ast.py lines 172-179): it asserts
that the left operand is an Expression and that the operator is one of the
four supported strings, then stores left, right and the operator.  No assert
inspects the right operand. -/
def BinaryOperation_init (left_expression : PyVal) (operator : String)
    (right_expression : PyVal) : Except Unit BinaryOperationNode :=
  match left_expression with
  | .ofExpr _ =>
      if operator ∈ (["+", "-", "*", "/"] : List String) then
        Except.ok ⟨left_expression, operator, right_expression⟩
      else
        Except.error ()
  | _ => Except.error ()

/-- The node produced by PrintStatement.__init__. -/
structure PrintStatementNode where
  print_list : List PyVal

/-- Mirrors PrintStatement.__init__ (src/ast.py lines 149-153): the only
assert checks isinstance(print_list, list), which holds for every list
argument; the types of the items are not checked (the source comment itself
notes that the list should only contain expressions and TEXT). -/
def PrintStatement_init (print_list : List PyVal) : Except Unit PrintStatementNode :=
  Except.ok ⟨print_list⟩

/-- True for a successful construction, false for a raised AssertionError. -/
def isOkE {ε α : Type} : Except ε α → Bool
  | .ok _ => true
  | .error _ => false

/-! ## Auxiliary predicate and concrete inputs used by the theorems -/

/-- A computation that leaves the generator state untouched on every path. -/
def preservesState {α : Type} (x : CG α) : Prop :=
  ∀ st, (x st).2 = st

/-- A one-function program with an empty body and no parameters. -/
def c1prog : Program :=
  ⟨[⟨("f"), [], Block.mk [] StmtList.nil⟩]⟩

/-- A shell-mode state in which the function tier binds x to address 1 and
the global tier binds y to address 0. -/
def c2state : CGState :=
  { mode := Mode.shell
    moduleGlobals := [(("main"), GlobalEntry.func 0 true)]
    main_symbol_table := some [(("y"), 0)]
    function_symbol_table := [(("x"), 1)]
    builder := some ("main")
    nextAlloca := 2
    nextFstr := 0 }

/-- The statement IF 0 THEN PRINT a text FI, with no ELSE branch. -/
def c3stmt : Stmt :=
  Stmt.IfStatement (Expr.Number false 0)
    (Block.mk [] (StmtList.cons (Stmt.PrintStatement [PrintItem.ofText ("\"yes\"")]) StmtList.nil))
    ElseBranch.pyNone

/-- An IfStatement with a truthy test and an ELSE branch present, showing
that the if-lowering crash does not depend on the absent else branch. -/
def c3stmt2 : Stmt :=
  Stmt.IfStatement (Expr.Number false 1)
    (Block.mk [] StmtList.nil)
    (ElseBranch.someBlock (Block.mk [] StmtList.nil))

/-- A shell-mode state whose module contains a lowered one-parameter
function f. -/
def c5state : CGState :=
  { mode := Mode.shell
    moduleGlobals := [(("main"), GlobalEntry.func 0 true), (("f"), GlobalEntry.func 1 true)]
    main_symbol_table := some []
    function_symbol_table := []
    builder := some ("main")
    nextAlloca := 0
    nextFstr := 0 }

/-- A state in the middle of lowering a user function f whose function tier
already binds x to address 5; the next alloca would be address 6. -/
def c6state : CGState :=
  { mode := Mode.shell
    moduleGlobals := [(("main"), GlobalEntry.func 0 true), (("f"), GlobalEntry.func 0 true)]
    main_symbol_table := some []
    function_symbol_table := [(("x"), 5)]
    builder := some ("f")
    nextAlloca := 6
    nextFstr := 0 }

/-- A shell-mode state after a completed interactive fragment declared the
global variable x at address 0. -/
def c7state : CGState :=
  { mode := Mode.shell
    moduleGlobals := [(("main"), GlobalEntry.func 0 true)]
    main_symbol_table := some [(("x"), 0)]
    function_symbol_table := []
    builder := some ("main")
    nextAlloca := 1
    nextFstr := 0 }

/-- The function definition FUNC f(x) with the body y := 1, whose lowering
fails on the undefined name y after the parameter x has been bound. -/
def c7fundef : FunctionDefinition :=
  ⟨("f"), [("x")], Block.mk [] (StmtList.cons (Stmt.AssignStatement ("y") (Expr.Number false 1)) StmtList.nil)⟩

/-- The state left behind by the failed lowering of c7fundef from c7state:
the function tier still binds the parameter x to the address 1 allocated
inside f, and the builder is still positioned inside f. -/
def c7post : CGState :=
  { mode := Mode.shell
    moduleGlobals := [(("main"), GlobalEntry.func 0 true), (("f"), GlobalEntry.func 1 true)]
    main_symbol_table := some [(("x"), 0)]
    function_symbol_table := [(("x"), 1)]
    builder := some ("f")
    nextAlloca := 2
    nextFstr := 0 }

/-! ## Helper lemmas -/

theorem tblGet_tblSet_self {α : Type} (tbl : List (String × α)) (k : String) (v : α) :
    tblGet (tblSet tbl k v) k = some v := by
  induction tbl with
  | nil => simp [tblSet, tblGet]
  | cons hd tl ih =>
    obtain ⟨k2, v2⟩ := hd
    by_cases h : k2 = k
    · simp [tblSet, tblGet, h]
    · simp [tblSet, tblGet, h, ih]

theorem tblGet_append_of_some {α : Type} {tbl : List (String × α)} {k : String} {v : α}
    (l2 : List (String × α)) (h : tblGet tbl k = some v) :
    tblGet (tbl ++ l2) k = some v := by
  induction tbl with
  | nil => simp [tblGet] at h
  | cons hd tl ih =>
    obtain ⟨k2, v2⟩ := hd
    by_cases h2 : k2 = k
    · simp [tblGet, h2] at h ⊢
      exact h
    · simp [tblGet, h2] at h ⊢
      exact ih h

theorem tblGet_append_isSome {α : Type} {tbl : List (String × α)} {k : String}
    (l2 : List (String × α)) (h : (tblGet tbl k).isSome = true) :
    (tblGet (tbl ++ l2) k).isSome = true := by
  cases h2 : tblGet tbl k with
  | none => rw [h2] at h; simp at h
  | some v => rw [tblGet_append_of_some l2 h2]; rfl

theorem tblGet_append_single_isSome {α : Type} (tbl : List (String × α)) (k : String) (v : α) :
    (tblGet (tbl ++ [(k, v)]) k).isSome = true := by
  induction tbl with
  | nil => simp [tblGet]
  | cons hd tl ih =>
    obtain ⟨k2, v2⟩ := hd
    by_cases h : k2 = k
    · simp [tblGet, h]
    · simp [tblGet, h]
      exact ih

theorem CG.pure_pres {α : Type} (a : α) : preservesState (CG.pure a) :=
  fun _ => rfl

theorem CG.throw_pres {α : Type} (e : PyErr) : preservesState (CG.throw (α := α) e) :=
  fun _ => rfl

theorem CG.get_pres : preservesState CG.get :=
  fun _ => rfl

theorem CG.readBuilder_pres : preservesState CG.readBuilder := by
  intro st
  unfold CG.readBuilder
  cases st.builder <;> rfl

theorem CG.bind_pres {α β : Type} {x : CG α} {f : α → CG β}
    (hx : preservesState x) (hf : ∀ a, preservesState (f a)) :
    preservesState (CG.bind x f) := by
  intro st
  unfold CG.bind
  cases h : x st with
  | mk r st2 =>
    have hx2 : st2 = st := by
      have hx3 := hx st
      rw [h] at hx3
      exact hx3
    cases r with
    | ok a =>
      show (f a st2).2 = st
      rw [hf a st2]
      exact hx2
    | error e =>
      show st2 = st
      exact hx2

theorem resolveTwoTier_pres (name : String) : preservesState (resolveTwoTier name) := by
  intro st
  unfold resolveTwoTier
  cases h1 : tblGet st.function_symbol_table name with
  | some addr => rfl
  | none =>
    cases h2 : st.main_symbol_table with
    | none => rfl
    | some tbl =>
      dsimp only
      cases h3 : tblGet tbl name <;> rfl

theorem codegen_ID_pres (name : String) : preservesState (codegen_ID name) :=
  CG.bind_pres (resolveTwoTier_pres name)
    (fun _ => CG.bind_pres CG.readBuilder_pres (fun _ => CG.pure_pres _))

mutual

theorem codegenExpr_pres : ∀ (e : Expr), preservesState (codegenExpr e)
  | .Number _ _ => fun _ => rfl
  | .ID _ name => codegen_ID_pres name
  | .BinaryOperation _ l op r =>
      CG.bind_pres (codegenExpr_pres l) (fun lhs =>
      CG.bind_pres (codegenExpr_pres r) (fun rhs => by
        intro st
        split_ifs <;>
          first
          | exact (CG.bind_pres CG.readBuilder_pres (fun _ => CG.pure_pres _)) st
          | exact CG.throw_pres _ st))
  | .FunctionCall _ callee args =>
      CG.bind_pres CG.get_pres (fun stv => by
        cases h1 : tblGet stv.moduleGlobals callee with
        | none => exact CG.throw_pres _
        | some entry =>
          cases entry with
          | gvar c => exact CG.throw_pres _
          | func arity hb =>
            try dsimp only
            by_cases h2 : arity ≠ args.count
            · rw [if_pos h2]
              cases args with
              | pyNone => exact CG.throw_pres _
              | pyList l2 => exact CG.throw_pres _
            · rw [if_neg h2]
              exact CG.bind_pres (codegenArgs_pres args)
                (fun vals => CG.bind_pres CG.readBuilder_pres (fun _ => CG.pure_pres _)))

theorem codegenArgs_pres : ∀ (args : Arguments), preservesState (codegenArgs args)
  | .pyNone => fun _ => rfl
  | .pyList l => codegenExprList_pres l

theorem codegenExprList_pres : ∀ (l : ExprList), preservesState (codegenExprList l)
  | .nil => fun _ => rfl
  | .cons e rest =>
      CG.bind_pres (codegenExpr_pres e) (fun _v =>
      CG.bind_pres (codegenExprList_pres rest) (fun _vs => CG.pure_pres _))

end

theorem CG.bind_eval_ok {α β : Type} {x : CG α} {f : α → CG β} {st st2 : CGState} {a : α}
    (h : x st = (Except.ok a, st2)) : CG.bind x f st = f a st2 := by
  unfold CG.bind
  rw [h]

theorem CG.bind_eval_error {α β : Type} {x : CG α} {f : α → CG β} {st st2 : CGState}
    {e : PyErr} (h : x st = (Except.error e, st2)) :
    CG.bind x f st = (Except.error e, st2) := by
  unfold CG.bind
  rw [h]

theorem CG.readBuilder_eval {st : CGState} {bf : String} (h : st.builder = some bf) :
    CG.readBuilder st = (Except.ok bf, st) := by
  unfold CG.readBuilder
  rw [h]

theorem resolveTwoTier_fnHit {st : CGState} {name : String} {addr : Nat}
    (h : tblGet st.function_symbol_table name = some addr) :
    resolveTwoTier name st = (Except.ok addr, st) := by
  unfold resolveTwoTier
  rw [h]

theorem resolveTwoTier_mainHit {st : CGState} {tbl : List (String × Nat)} {name : String}
    {addr : Nat} (h1 : tblGet st.function_symbol_table name = none)
    (h2 : st.main_symbol_table = some tbl) (h3 : tblGet tbl name = some addr) :
    resolveTwoTier name st = (Except.ok addr, st) := by
  unfold resolveTwoTier
  rw [h1]
  dsimp only
  rw [h2]
  dsimp only
  rw [h3]

theorem resolveTwoTier_missAll {st : CGState} {tbl : List (String × Nat)} {name : String}
    (h1 : tblGet st.function_symbol_table name = none)
    (h2 : st.main_symbol_table = some tbl) (h3 : tblGet tbl name = none) :
    resolveTwoTier name st = (Except.error (PyErr.nameErrorUndefined name), st) := by
  unfold resolveTwoTier
  rw [h1]
  dsimp only
  rw [h2]
  dsimp only
  rw [h3]

theorem codegen_Text_globals_mono (v : String) (st : CGState) (k : String)
    (h : (tblGet st.moduleGlobals k).isSome = true) :
    (tblGet ((codegen_Text v st).2).moduleGlobals k).isSome = true := by
  have hres : (codegen_Text v st).2 =
      addGlobal { st with nextFstr := st.nextFstr + 1 }
        (fstrName st.nextFstr) (GlobalEntry.gvar (stripQuotes v)) := by
    unfold codegen_Text
    dsimp only
    cases h2 : (addGlobal { st with nextFstr := st.nextFstr + 1 }
        (fstrName st.nextFstr) (GlobalEntry.gvar (stripQuotes v))).builder <;> rfl
  rw [hres]
  dsimp only [addGlobal]
  exact tblGet_append_isSome _ h

theorem codegenPrintItem_globals_mono (i : PrintItem) (st : CGState) (k : String)
    (h : (tblGet st.moduleGlobals k).isSome = true) :
    (tblGet ((codegenPrintItem i st).2).moduleGlobals k).isSome = true := by
  cases i with
  | ofText v => exact codegen_Text_globals_mono v st k h
  | ofExpr e =>
    show (tblGet ((codegenExpr e st).2).moduleGlobals k).isSome = true
    rw [codegenExpr_pres e st]
    exact h

theorem codegenPrintItems_globals_mono :
    ∀ (items : List PrintItem) (st : CGState) (k : String),
      (tblGet st.moduleGlobals k).isSome = true →
      (tblGet ((codegenPrintItems items st).2).moduleGlobals k).isSome = true
  | [], _, _, h => h
  | i :: rest, st, k, h => by
      show (tblGet ((CG.bind (codegenPrintItem i) (fun v =>
        CG.bind (codegenPrintItems rest) (fun vs =>
        CG.pure (v :: vs))) st).2).moduleGlobals k).isSome = true
      unfold CG.bind
      cases h2 : codegenPrintItem i st with
      | mk r st2 =>
        have hst2 : (tblGet st2.moduleGlobals k).isSome = true := by
          have h3 := codegenPrintItem_globals_mono i st k h
          rw [h2] at h3
          exact h3
        cases r with
        | error e => exact hst2
        | ok v =>
          dsimp only
          cases h4 : codegenPrintItems rest st2 with
          | mk r2 st3 =>
            have hst3 : (tblGet st3.moduleGlobals k).isSome = true := by
              have h5 := codegenPrintItems_globals_mono rest st2 k hst2
              rw [h4] at h5
              exact h5
            cases r2 with
            | error e2 => exact hst3
            | ok vs => exact hst3

theorem codegen_PrintStatement_adds_printf (print_list : List PrintItem) (st : CGState) :
    (tblGet ((codegen_PrintStatement print_list st).2).moduleGlobals ("printf")).isSome = true := by
  show (tblGet ((CG.bind CG.get _ st).2).moduleGlobals ("printf")).isSome = true
  rw [CG.bind_eval_ok (rfl : CG.get st = (Except.ok st, st))]
  try dsimp only
  generalize hstep : (if (tblGet st.moduleGlobals ("printf")).isSome then CG.pure ()
      else CG.modify (fun s => addGlobal s ("printf") (GlobalEntry.func 1 false))) = step
  have hstep2 : step st = (Except.ok (), (step st).2) ∧
      (tblGet ((step st).2).moduleGlobals ("printf")).isSome = true := by
    rw [← hstep]
    by_cases hp : (tblGet st.moduleGlobals ("printf")).isSome = true
    · rw [if_pos hp]
      exact ⟨rfl, hp⟩
    · rw [if_neg hp]
      refine ⟨rfl, ?_⟩
      show (tblGet (addGlobal st ("printf") (GlobalEntry.func 1 false)).moduleGlobals ("printf")).isSome = true
      dsimp only [addGlobal]
      exact tblGet_append_single_isSome _ _ _
  rw [CG.bind_eval_ok hstep2.1]
  set st1 := (step st).2 with hst1
  have hp1 : (tblGet st1.moduleGlobals ("printf")).isSome = true := hstep2.2
  rw [CG.bind_eval_ok (rfl : CG.modify _ st1 = (Except.ok (), _))]
  set st2 := addGlobal { st1 with nextFstr := st1.nextFstr + 1 }
      (fstrName st1.nextFstr) (GlobalEntry.gvar (buildFormat print_list)) with hst2
  have hp2 : (tblGet st2.moduleGlobals ("printf")).isSome = true := by
    rw [hst2]
    dsimp only [addGlobal]
    exact tblGet_append_isSome _ hp1
  cases hb : st2.builder with
  | none =>
    rw [CG.bind_eval_error (by unfold CG.readBuilder; rw [hb])]
    exact hp2
  | some bf =>
    rw [CG.bind_eval_ok (CG.readBuilder_eval hb)]
    cases h4 : codegenPrintItems print_list st2 with
    | mk r2 st3 =>
      have hp3 : (tblGet st3.moduleGlobals ("printf")).isSome = true := by
        have h5 := codegenPrintItems_globals_mono print_list st2 ("printf") hp2
        rw [h4] at h5
        exact h5
      cases r2 with
      | error e2 =>
        rw [CG.bind_eval_error h4]
        exact hp3
      | ok vals =>
        rw [CG.bind_eval_ok h4]
        exact hp3

/-! ## Claim theorems -/

/-- C1: the claim asserts that lowering succeeds for every Program whose
function definitions have pairwise-distinct names and yields one IR function
per definition with the right arity.  Program nodes are lowered in compile
([whole-program]) mode, where __init__ never assigns self.builder, but
_codegen_FunctionDefinition reads self.builder (line 243) before assigning
it.  Hence lowering a one-function program with trivially pairwise-distinct
names raises AttributeError; at the crash point the module already holds the
function skeleton with its declared parameter count. -/
theorem c1_compile_mode_program_lowering_crashes :
    c1prog.function_list.Pairwise (fun a b => a.name ≠ b.name) ∧
    codegen_Program c1prog (initState Mode.compile) =
      (Except.error (PyErr.attributeError MissingAttr.builder),
       { mode := Mode.compile
         moduleGlobals := [(("f"), GlobalEntry.func 0 true)]
         main_symbol_table := none
         function_symbol_table := []
         builder := none
         nextAlloca := 0
         nextFstr := 0 }) := by
  constructor
  · simp [c1prog]
  · rfl

/-- C2: name resolution for an Identifier read (codegen_ID) and for an
assignment target (codegen_AssignStatement) consults the function tier
first; the global tier is read only on a function-tier miss, and the
conclusion of the function-tier-hit cases is the same for every content of
the global tier, so the global tier is never read when a same-named
function-tier entry exists; a miss in both tiers raises the NameError
CodegenError (before the right-hand side of an assignment is lowered). -/
theorem c2_resolution_prefers_function_tier :
    (∀ (st : CGState) (name bf : String) (addr : Nat),
        tblGet st.function_symbol_table name = some addr →
        st.builder = some bf →
        codegen_ID name st = (Except.ok (IRValue.load addr name), st)) ∧
    (∀ (st : CGState) (tbl : List (String × Nat)) (name bf : String) (addr : Nat),
        tblGet st.function_symbol_table name = none →
        st.main_symbol_table = some tbl →
        tblGet tbl name = some addr →
        st.builder = some bf →
        codegen_ID name st = (Except.ok (IRValue.load addr name), st)) ∧
    (∀ (st : CGState) (tbl : List (String × Nat)) (name : String),
        tblGet st.function_symbol_table name = none →
        st.main_symbol_table = some tbl →
        tblGet tbl name = none →
        codegen_ID name st = (Except.error (PyErr.nameErrorUndefined name), st)) ∧
    (∀ (st : CGState) (name : String) (rhs : Expr) (addr : Nat),
        tblGet st.function_symbol_table name = some addr →
        codegen_AssignStatement name rhs st =
          CG.bind (codegenExpr rhs) (fun _ => CG.bind CG.readBuilder (fun _ => CG.pure ())) st) ∧
    (∀ (st : CGState) (tbl : List (String × Nat)) (name : String) (rhs : Expr) (addr : Nat),
        tblGet st.function_symbol_table name = none →
        st.main_symbol_table = some tbl →
        tblGet tbl name = some addr →
        codegen_AssignStatement name rhs st =
          CG.bind (codegenExpr rhs) (fun _ => CG.bind CG.readBuilder (fun _ => CG.pure ())) st) ∧
    (∀ (st : CGState) (tbl : List (String × Nat)) (name : String) (rhs : Expr),
        tblGet st.function_symbol_table name = none →
        st.main_symbol_table = some tbl →
        tblGet tbl name = none →
        codegen_AssignStatement name rhs st =
          (Except.error (PyErr.nameErrorUndefined name), st)) := by
  refine ⟨?_, ?_, ?_, ?_, ?_, ?_⟩
  · intro st name bf addr h hb
    unfold codegen_ID
    rw [CG.bind_eval_ok (resolveTwoTier_fnHit h)]
    rw [CG.bind_eval_ok (CG.readBuilder_eval hb)]
    rfl
  · intro st tbl name bf addr h1 h2 h3 hb
    unfold codegen_ID
    rw [CG.bind_eval_ok (resolveTwoTier_mainHit h1 h2 h3)]
    rw [CG.bind_eval_ok (CG.readBuilder_eval hb)]
    rfl
  · intro st tbl name h1 h2 h3
    unfold codegen_ID
    rw [CG.bind_eval_error (resolveTwoTier_missAll h1 h2 h3)]
  · intro st name rhs addr h
    unfold codegen_AssignStatement
    rw [CG.bind_eval_ok (resolveTwoTier_fnHit h)]
  · intro st tbl name rhs addr h1 h2 h3
    unfold codegen_AssignStatement
    rw [CG.bind_eval_ok (resolveTwoTier_mainHit h1 h2 h3)]
  · intro st tbl name rhs h1 h2 h3
    unfold codegen_AssignStatement
    rw [CG.bind_eval_error (resolveTwoTier_missAll h1 h2 h3)]

/-- C2 witness: in the concrete shell state c2state, x (bound in both tiers
to different addresses in spirit, here bound in the function tier) resolves
to the function-tier address 1, y resolves through the global tier to
address 0, and the unbound z fails with the NameError CodegenError. -/
theorem c2_witness :
    codegen_ID ("x") c2state = (Except.ok (IRValue.load 1 ("x")), c2state) ∧
    codegen_ID ("y") c2state = (Except.ok (IRValue.load 0 ("y")), c2state) ∧
    codegen_ID ("z") c2state = (Except.error (PyErr.nameErrorUndefined ("z")), c2state) :=
  ⟨c2_resolution_prefers_function_tier.1 c2state ("x") ("main") 1 rfl rfl,
   c2_resolution_prefers_function_tier.2.1 c2state [(("y"), 0)] ("y") ("main") 0 rfl rfl rfl rfl,
   c2_resolution_prefers_function_tier.2.2.1 c2state [(("y"), 0)] ("z") rfl rfl rfl⟩

/-- C3: the claim asserts that IF 0 THEN PRINT a text FI lowers without
error and prints nothing.  On the code, _codegen_IfStatement first lowers
the test and compares it against zero with the strict greater-than
predicate, but then repositions the builder onto a dangling ir.Block whose
parent is the previous basic block, so entering builder.if_else raises
AttributeError (a Block has no append_basic_block method) before either
branch is lowered: the statement crashes with the module globals untouched
(no printf, no format strings), and it crashes the same way when an ELSE
branch is present (second conjunct), so the unconditional else dispatch is
never even reached. -/
theorem c3_if_statement_crashes_in_if_else :
    codegenStmt c3stmt (initState Mode.shell) =
      (Except.error (PyErr.attributeError MissingAttr.append_basic_block),
       initState Mode.shell) ∧
    codegenStmt c3stmt2 (initState Mode.shell) =
      (Except.error (PyErr.attributeError MissingAttr.append_basic_block),
       initState Mode.shell) ∧
    PyErr.isCodegenError (PyErr.attributeError MissingAttr.append_basic_block) = false :=
  ⟨rfl, rfl, rfl⟩

/-- C4: the claim asserts that a call to an unknown function fails with the
unknown-callee CodegenError, not a crash.  On the code,
ir.Module.get_global raises KeyError for a missing name, so the is-None
test on its result is dead code and the call crashes with an uncaught
KeyError. -/
theorem c4_unknown_callee_raises_keyerror :
    codegenExpr (Expr.FunctionCall false ("foo") Arguments.pyNone) (initState Mode.shell) =
      (Except.error (PyErr.keyError ("foo")), initState Mode.shell) ∧
    PyErr.isCodegenError (PyErr.keyError ("foo")) = false :=
  ⟨rfl, rfl⟩

/-- C5: the claim asserts that an arity-mismatched call always fails with
the arity-mismatch CodegenError.  When the argument_list is a list (second
conjunct: two arguments against declared arity one), the CodegenError is
raised as claimed; but when the argument_list is Python None (a call written
with empty parentheses, first conjunct), building that very error message
evaluates len(None), which crashes with TypeError instead. -/
theorem c5_arity_mismatch_with_none_args_crashes :
    codegenExpr (Expr.FunctionCall false ("f") Arguments.pyNone) c5state =
      (Except.error PyErr.typeErrorLenOfNone, c5state) ∧
    PyErr.isCodegenError PyErr.typeErrorLenOfNone = false ∧
    codegenExpr (Expr.FunctionCall false ("f")
        (Arguments.pyList (ExprList.cons (Expr.Number false 1)
          (ExprList.cons (Expr.Number false 2) ExprList.nil)))) c5state =
      (Except.error (PyErr.callArgumentLengthMismatch 2 ("f")), c5state) :=
  ⟨rfl, rfl, rfl⟩

/-- C6 (amended): lowering a VariableDeclaration for a name already bound in
the currently active tier rebinds the name, in place in that tier, to a
freshly allocated zero-initialized storage location (the next alloca), so a
second storage location is created and the old one is abandoned; no second
name entry appears (re-declaration is not shadowing).  The first conjunct
covers the function tier, the second the main tier. -/
theorem c6_redeclaration_creates_fresh_location :
    (∀ (st : CGState) (bf name : String) (a : Nat),
        st.builder = some bf → bf ≠ "main" →
        tblGet st.function_symbol_table name = some a →
        codegen_VariableDeclaration ⟨[name]⟩ st =
          (Except.ok (),
           { st with
             function_symbol_table := tblSet st.function_symbol_table name st.nextAlloca,
             nextAlloca := st.nextAlloca + 1 }) ∧
        tblGet (tblSet st.function_symbol_table name st.nextAlloca) name = some st.nextAlloca ∧
        (a ≠ st.nextAlloca →
          tblGet (tblSet st.function_symbol_table name st.nextAlloca) name ≠ some a)) ∧
    (∀ (st : CGState) (tbl : List (String × Nat)) (name : String) (a : Nat),
        st.builder = some "main" →
        st.main_symbol_table = some tbl →
        tblGet tbl name = some a →
        codegen_VariableDeclaration ⟨[name]⟩ st =
          (Except.ok (),
           { st with
             main_symbol_table := some (tblSet tbl name st.nextAlloca),
             nextAlloca := st.nextAlloca + 1 }) ∧
        tblGet (tblSet tbl name st.nextAlloca) name = some st.nextAlloca ∧
        (a ≠ st.nextAlloca →
          tblGet (tblSet tbl name st.nextAlloca) name ≠ some a)) := by
  constructor
  · intro st bf name a hb hbf _ha
    refine ⟨?_, tblGet_tblSet_self _ _ _, ?_⟩
    · unfold codegen_VariableDeclaration declareVars
      rw [CG.bind_eval_ok (CG.readBuilder_eval hb)]
      dsimp only
      rw [if_neg hbf]
      rfl
    · intro hne h
      rw [tblGet_tblSet_self] at h
      exact hne (Option.some.inj h).symm
  · intro st tbl name a hb hm _ha
    refine ⟨?_, tblGet_tblSet_self _ _ _, ?_⟩
    · unfold codegen_VariableDeclaration declareVars
      rw [CG.bind_eval_ok (CG.readBuilder_eval hb)]
      dsimp only
      rw [if_pos rfl]
      have hm2 : ({ st with nextAlloca := st.nextAlloca + 1 } : CGState).main_symbol_table =
          some tbl := hm
      rw [hm2]
      rfl
    · intro hne h
      rw [tblGet_tblSet_self] at h
      exact hne (Option.some.inj h).symm

/-- C6 counterexample: in the concrete state c6state the function tier binds
x to location 5; lowering VAR x rebinds x to the freshly created location 6
and advances the allocation counter, so a second storage location is created
and x is no longer bound to its previous location, contradicting the claim
that the same storage location is rebound without creating a second one. -/
theorem c6_counterexample :
    codegen_VariableDeclaration ⟨[("x")]⟩ c6state =
      (Except.ok (),
       { mode := Mode.shell
         moduleGlobals := [(("main"), GlobalEntry.func 0 true), (("f"), GlobalEntry.func 0 true)]
         main_symbol_table := some []
         function_symbol_table := [(("x"), 6)]
         builder := some ("f")
         nextAlloca := 7
         nextFstr := 0 }) ∧
    tblGet c6state.function_symbol_table ("x") = some 5 ∧
    tblGet ([(("x"), 6)] : List (String × Nat)) ("x") ≠ some 5 ∧
    (7 : Nat) = c6state.nextAlloca + 1 := by
  refine ⟨rfl, rfl, ?_, rfl⟩
  decide

/-- C6 witness: the amended theorem applied to the concrete state c6state. -/
theorem c6_witness :
    codegen_VariableDeclaration ⟨[("x")]⟩ c6state =
      (Except.ok (),
       { c6state with
         function_symbol_table := tblSet c6state.function_symbol_table ("x") c6state.nextAlloca,
         nextAlloca := c6state.nextAlloca + 1 }) ∧
    tblGet (tblSet c6state.function_symbol_table ("x") c6state.nextAlloca) ("x") =
      some c6state.nextAlloca :=
  ⟨(c6_redeclaration_creates_fresh_location.1 c6state ("f") ("x") 5 rfl (by decide) rfl).1,
   (c6_redeclaration_creates_fresh_location.1 c6state ("f") ("x") 5 rfl (by decide) rfl).2.1⟩

/-- C7: the claim asserts that a failed lowering of one unit leaves the
scope tiers uncorrupted and the function tier fully cleared when the unit
ends.  On the code there is no try and finally around the body lowering:
when FUNC f(x) with body y := 1 fails on the undefined y in the shell state
c7state, the function tier still binds the parameter x to the dead alloca 1
and the builder is still positioned inside f, so the previously defined
global x now resolves to location 1 instead of its prior location 0. -/
theorem c7_failed_lowering_leaves_tier_populated :
    codegen_FunctionDefinition c7fundef c7state =
      (Except.error (PyErr.nameErrorUndefined ("y")), c7post) ∧
    c7post.function_symbol_table ≠ [] ∧
    c7post.builder = some ("f") ∧
    resolveTwoTier ("x") c7post = (Except.ok 1, c7post) ∧
    (1 : Nat) ≠ 0 := by
  refine ⟨rfl, ?_, rfl, rfl, ?_⟩
  · decide
  · decide

/-- C8: the claim asserts that the lowering consumer consults the unary
minus flag, so a flag toggled once yields the negated value.  On the code no
visitor reads minus_flag: toggling the flag on any expression does not
change its lowering at all, and in particular a Number with the flag set
emits its unnegated constant. -/
theorem c8_minus_flag_never_consulted :
    (∀ (e : Expr) (st : CGState),
        codegenExpr (Expr.change_minus_flag e) st = codegenExpr e st) ∧
    codegenExpr (Expr.Number true 2) (initState Mode.shell) =
      (Except.ok (IRValue.const 2), initState Mode.shell) ∧
    IRValue.const 2 ≠ IRValue.const (-2) := by
  refine ⟨?_, rfl, ?_⟩
  · intro e st
    cases e <;> rfl
  · intro h
    injection h with h2
    norm_num at h2

/-- C9 counterexample: a BinaryOperation whose right operand is a Text node
(not an Expression) is constructed without any structural error, and a
PrintStatement whose single item is Python None (neither an Expression nor a
Text) is also constructed without error, contradicting the claimed
constructor contracts. -/
theorem c9_counterexample :
    isOkE (BinaryOperation_init (PyVal.ofExpr (Expr.Number false 1)) ("+")
      (PyVal.ofText ("hi"))) = true ∧
    isOkE (PrintStatement_init [PyVal.pyNone]) = true :=
  ⟨rfl, rfl⟩

/-- C9 (amended): BinaryOperation construction succeeds exactly when the
left operand is an Expression and the operator is one of the four supported
strings; the right operand is never inspected.  PrintStatement construction
succeeds for every list, regardless of the item types. -/
theorem c9_constructor_checks :
    (∀ (l : PyVal) (op : String) (r : PyVal),
        isOkE (BinaryOperation_init l op r) =
          (l.isExpression && decide (op ∈ (["+", "-", "*", "/"] : List String)))) ∧
    (∀ (items : List PyVal), isOkE (PrintStatement_init items) = true) := by
  refine ⟨?_, fun items => rfl⟩
  intro l op r
  cases l with
  | ofExpr e =>
    by_cases h : op ∈ (["+", "-", "*", "/"] : List String)
    · simp [BinaryOperation_init, isOkE, PyVal.isExpression, h]
    · simp [BinaryOperation_init, isOkE, PyVal.isExpression, h]
  | ofText v => simp [BinaryOperation_init, isOkE, PyVal.isExpression]
  | pyNone => simp [BinaryOperation_init, isOkE, PyVal.isExpression]

/-- C10: in shell mode the module is created holding the implicit entry
function main, and _codegen_FunctionDefinition raises the redefinition
CodegenError (without mutating any state) for every function whose name is
already a module global; lowering any PrintStatement leaves printf present
among the module globals, whatever the prior state and whether or not the
item lowering succeeds.  Hence FUNC main always fails in shell mode, and
FUNC printf fails once any print statement has been lowered, even though no
user-defined function of either name exists. -/
theorem c10_implicit_globals_block_redefinition :
    tblGet (initState Mode.shell).moduleGlobals ("main") = some (GlobalEntry.func 0 true) ∧
    (∀ (node : FunctionDefinition) (st : CGState),
        (tblGet st.moduleGlobals node.name).isSome = true →
        codegen_FunctionDefinition node st =
          (Except.error (PyErr.redefinitionOfFunction node.name), st)) ∧
    (∀ (print_list : List PrintItem) (st : CGState),
        (tblGet ((codegen_PrintStatement print_list st).2).moduleGlobals ("printf")).isSome
          = true) := by
  refine ⟨rfl, ?_, codegen_PrintStatement_adds_printf⟩
  intro node st h
  unfold codegen_FunctionDefinition
  rw [if_pos h]

/-- C10 witness: in the freshly initialized shell state, defining a function
named main fails with the redefinition error, and after lowering an empty
print statement the module contains printf. -/
theorem c10_witness :
    codegen_FunctionDefinition
        (⟨("main"), [], Block.mk [] StmtList.nil⟩ : FunctionDefinition)
        (initState Mode.shell) =
      (Except.error (PyErr.redefinitionOfFunction ("main")), initState Mode.shell) ∧
    (tblGet ((codegen_PrintStatement [] (initState Mode.shell)).2).moduleGlobals
      ("printf")).isSome = true :=
  ⟨c10_implicit_globals_block_redefinition.2.1
      (⟨("main"), [], Block.mk [] StmtList.nil⟩ : FunctionDefinition)
      (initState Mode.shell) rfl,
   c10_implicit_globals_block_redefinition.2.2 [] (initState Mode.shell)⟩

end VSL
